import Mathlib

/-!
Shallow embedding of the `timelog` labeled-stopwatch library.

The repository contains two variants of the same component:
* `src/lib.rs` — `Timer` holding `Arc<Mutex<HashMap<String, Instant>>>`;
  `time_log(label, message: Option<&str>)` and `time_end(label)` return `()`.
  Embedded below in namespace `MsgVariant`.
* `src/src/lib.rs` — `Timer` holding a plain `HashMap<String, Instant>`;
  `time_log(label, silent: bool) -> f64` and `time_end(label, silent) -> f64`.
  Embedded below in namespace `SilentVariant`.

Modelling choices:
* An `Instant` of the monotonic clock is a `Nat` counting nanoseconds; "now"
  is passed explicitly to each operation.  `Instant::elapsed` is saturating,
  which truncated `Nat` subtraction matches.
* A `Duration` is a `Nat` of nanoseconds; `as_secs` and `subsec_nanos` are
  its Euclidean division by 10^9.
* The `HashMap` registry is a function `String → Option Instant`; `insert`
  overwrites, `get` reads, `remove` deletes, exactly as in the source.
* `f64` values are modelled as exact rationals `ℚ`: every quantity the code
  produces from its integer inputs is handled symbolically, and the printing
  precision `{:.3}` is modelled as rounding to the nearest thousandth.
* `println!` / `eprintln!` are modelled by returning the list of lines each
  call appends to stdout resp. stderr.
-/

abbrev Label := String

/-- A monotonic-clock reading, in nanoseconds. -/
abbrev Instant := Nat

/-- A `std::time::Duration`, as a total nanosecond count. -/
abbrev Duration := Nat

/-- `Duration::as_secs`: the whole-second part. -/
def Duration.as_secs (d : Duration) : Nat := d / 1000000000

/-- `Duration.subsec_nanos`: the sub-second nanosecond part. -/
def Duration.subsec_nanos (d : Duration) : Nat := d % 1000000000

/-- `Timer::duration_to_ms` (identical in both source files):
`duration.as_secs() as f64 * 1000.0 + duration.subsec_nanos() as f64 / 1_000_000.0`. -/
def duration_to_ms (duration : Duration) : ℚ :=
  (duration.as_secs : ℚ) * 1000 + (duration.subsec_nanos : ℚ) / 1000000

/-- Result of one library call: the returned value, the timer state after the
call, and the lines the call wrote to stdout and stderr. -/
structure Effect (α : Type) (σ : Type) where
  ret : α
  timer : σ
  stdout : List String
  stderr : List String

/-- Three-digit zero-padded decimal rendering of `n < 1000`. -/
def pad3 (n : Nat) : String :=
  if n < 10 then "00" ++ toString n
  else if n < 100 then "0" ++ toString n
  else toString n

/-- Rendering of a nonnegative `f64` with `{:.3}`: three digits after the
decimal point, rounded to the nearest thousandth. -/
def fmt3 (q : ℚ) : String :=
  let n : Nat := (⌊q * 1000 + 1 / 2⌋).toNat
  toString (n / 1000) ++ "." ++ pad3 (n % 1000)

/-- The stdout line `"{label}: {ms:.3}ms"`. -/
def logLine (label : Label) (ms : ℚ) : String :=
  label ++ ": " ++ fmt3 ms ++ "ms"

/-- The stdout line `"{label}: {ms:.3}ms - {message}"`. -/
def msgLine (label : Label) (ms : ℚ) (msg : String) : String :=
  logLine label ms ++ " - " ++ msg

/-- The stderr diagnostic `"Timer '{label}' does not exist"`. -/
def missingLine (label : Label) : String :=
  "Timer '" ++ label ++ "' does not exist"

namespace SilentVariant

/-- `Timer` of `src/src/lib.rs`: a plain `HashMap<String, Instant>`. -/
structure Timer where
  timers : Label → Option Instant

/-- `Timer::new`: empty registry. -/
def Timer.new : Timer := ⟨fun _ => none⟩

/-- `Timer::time`: `self.timers.insert(label.to_string(), Instant::now())`. -/
def Timer.time (t : Timer) (label : Label) (now : Instant) : Timer :=
  ⟨fun l => if l = label then some now else t.timers l⟩

/-- `Timer::time_log(label, silent) -> f64` of `src/src/lib.rs`. -/
def Timer.time_log (t : Timer) (label : Label) (silent : Bool) (now : Instant) :
    Effect ℚ Timer :=
  match t.timers label with
  | some start_time =>
      let ms := duration_to_ms (now - start_time)
      { ret := ms
        timer := t
        stdout := if silent then [] else [logLine label ms]
        stderr := [] }
  | none =>
      { ret := 0
        timer := t
        stdout := []
        stderr := [missingLine label] }

/-- `Timer::time_end(label, silent) -> f64` of `src/src/lib.rs`: like
`time_log` but with `self.timers.remove(label)` on the success path. -/
def Timer.time_end (t : Timer) (label : Label) (silent : Bool) (now : Instant) :
    Effect ℚ Timer :=
  match t.timers label with
  | some start_time =>
      let ms := duration_to_ms (now - start_time)
      { ret := ms
        timer := ⟨fun l => if l = label then none else t.timers l⟩
        stdout := if silent then [] else [logLine label ms]
        stderr := [] }
  | none =>
      { ret := 0
        timer := t
        stdout := []
        stderr := [missingLine label] }

end SilentVariant

namespace MsgVariant

/-- `Timer` of `src/lib.rs`: `Arc<Mutex<HashMap<String, Instant>>>`.  The
lock succeeds on every call in the sequential model, so the registry content
is the whole state. -/
structure Timer where
  timers : Label → Option Instant

/-- `Timer::new`: empty registry. -/
def Timer.new : Timer := ⟨fun _ => none⟩

/-- `Timer::time`: lock, then `timers.insert(label.to_string(), Instant::now())`. -/
def Timer.time (t : Timer) (label : Label) (now : Instant) : Timer :=
  ⟨fun l => if l = label then some now else t.timers l⟩

/-- `Timer::time_log(label, message: Option<&str>)` of `src/lib.rs`: prints
but returns `()` and never suppresses the success line. -/
def Timer.time_log (t : Timer) (label : Label) (message : Option String)
    (now : Instant) : Effect Unit Timer :=
  match t.timers label with
  | some start_time =>
      let ms := duration_to_ms (now - start_time)
      { ret := ()
        timer := t
        stdout := [match message with
                   | some msg => msgLine label ms msg
                   | none => logLine label ms]
        stderr := [] }
  | none =>
      { ret := ()
        timer := t
        stdout := []
        stderr := [missingLine label] }

/-- `Timer::time_end(label)` of `src/lib.rs`: removes the entry and prints,
returning `()`. -/
def Timer.time_end (t : Timer) (label : Label) (now : Instant) :
    Effect Unit Timer :=
  match t.timers label with
  | some start_time =>
      let ms := duration_to_ms (now - start_time)
      { ret := ()
        timer := ⟨fun l => if l = label then none else t.timers l⟩
        stdout := [logLine label ms]
        stderr := [] }
  | none =>
      { ret := ()
        timer := t
        stdout := []
        stderr := [missingLine label] }

end MsgVariant

/-! ## Helper lemmas -/

theorem duration_to_ms_eq_div (d : Duration) : duration_to_ms d = (d : ℚ) / 1000000 := by
  have h : ((1000000000 * (d / 1000000000) + d % 1000000000 : ℕ) : ℚ) = (d : ℚ) := by
    rw [Nat.div_add_mod]
  unfold duration_to_ms Duration.as_secs Duration.subsec_nanos
  rw [← h]
  push_cast
  ring

theorem duration_to_ms_mono {d1 d2 : Duration} (h : d1 ≤ d2) :
    duration_to_ms d1 ≤ duration_to_ms d2 := by
  rw [duration_to_ms_eq_div, duration_to_ms_eq_div]
  have : (d1 : ℚ) ≤ (d2 : ℚ) := by exact_mod_cast h
  linarith

theorem silent_time_log_timer (t : SilentVariant.Timer) (l : Label) (b : Bool)
    (now : Instant) : (t.time_log l b now).timer = t := by
  cases h : t.timers l <;> simp [SilentVariant.Timer.time_log, h]

theorem msg_time_log_timer (t : MsgVariant.Timer) (l : Label) (m : Option String)
    (now : Instant) : (t.time_log l m now).timer = t := by
  cases h : t.timers l <;> simp [MsgVariant.Timer.time_log, h]

/-! ## Claim theorems -/

/-- Claim C1: when label `l` is present with start instant `s`, `time_end`
returns `duration_to_ms (now - s)` and removes `l` from the registry, so a
subsequent `time_log` or `time_end` on `l` takes the not-found branch,
returns `0.0` and emits the diagnostic.  (`src/src/lib.rs` variant, the one
whose `time_end` returns the elapsed value.) -/
theorem C1_stop_removes_label (t : SilentVariant.Timer) (l : Label)
    (s now now2 : Instant) (b b2 : Bool) (h : t.timers l = some s) :
    (t.time_end l b now).ret = duration_to_ms (now - s) ∧
    (t.time_end l b now).timer.timers l = none ∧
    ((t.time_end l b now).timer.time_log l b2 now2).ret = 0 ∧
    ((t.time_end l b now).timer.time_log l b2 now2).stderr = [missingLine l] ∧
    ((t.time_end l b now).timer.time_end l b2 now2).ret = 0 ∧
    ((t.time_end l b now).timer.time_end l b2 now2).stderr = [missingLine l] := by
  simp [SilentVariant.Timer.time_end, SilentVariant.Timer.time_log, h]

/-- Witness for C1 at a concrete input: start `"a"` at instant `0`, stop it
at instant `5`. -/
theorem C1_stop_removes_label_witness :
    ((SilentVariant.Timer.new.time "a" 0).time_end "a" false 5).ret
      = duration_to_ms (5 - 0) ∧
    ((SilentVariant.Timer.new.time "a" 0).time_end "a" false 5).timer.timers "a" = none ∧
    (((SilentVariant.Timer.new.time "a" 0).time_end "a" false 5).timer.time_log
        "a" false 7).ret = 0 ∧
    (((SilentVariant.Timer.new.time "a" 0).time_end "a" false 5).timer.time_log
        "a" false 7).stderr = [missingLine "a"] ∧
    (((SilentVariant.Timer.new.time "a" 0).time_end "a" false 5).timer.time_end
        "a" false 7).ret = 0 ∧
    (((SilentVariant.Timer.new.time "a" 0).time_end "a" false 5).timer.time_end
        "a" false 7).stderr = [missingLine "a"] :=
  C1_stop_removes_label (SilentVariant.Timer.new.time "a" 0) "a" 0 5 7 false false
    (by simp [SilentVariant.Timer.time, SilentVariant.Timer.new])

/-- Claim C2: when label `l` is absent, both `time_log` and `time_end` emit
exactly the stderr diagnostic `"Timer '<l>' does not exist"`, return the
sentinel `0.0`, leave the registry unchanged and write nothing to stdout;
both are total functions, so no exception or abort is possible. -/
theorem C2_missing_label_diagnostic (t : SilentVariant.Timer) (l : Label)
    (b : Bool) (now : Instant) (h : t.timers l = none) :
    (t.time_log l b now).ret = 0 ∧
    (t.time_log l b now).timer = t ∧
    (t.time_log l b now).stdout = [] ∧
    (t.time_log l b now).stderr = [missingLine l] ∧
    (t.time_end l b now).ret = 0 ∧
    (t.time_end l b now).timer = t ∧
    (t.time_end l b now).stdout = [] ∧
    (t.time_end l b now).stderr = [missingLine l] := by
  simp [SilentVariant.Timer.time_log, SilentVariant.Timer.time_end, h]

/-- Witness for C2 at a concrete input: the fresh registry with label `"a"`. -/
theorem C2_missing_label_diagnostic_witness :
    (SilentVariant.Timer.new.time_log "a" false 3).ret = 0 ∧
    (SilentVariant.Timer.new.time_log "a" false 3).timer = SilentVariant.Timer.new ∧
    (SilentVariant.Timer.new.time_log "a" false 3).stdout = [] ∧
    (SilentVariant.Timer.new.time_log "a" false 3).stderr = [missingLine "a"] ∧
    (SilentVariant.Timer.new.time_end "a" false 3).ret = 0 ∧
    (SilentVariant.Timer.new.time_end "a" false 3).timer = SilentVariant.Timer.new ∧
    (SilentVariant.Timer.new.time_end "a" false 3).stdout = [] ∧
    (SilentVariant.Timer.new.time_end "a" false 3).stderr = [missingLine "a"] :=
  C2_missing_label_diagnostic SilentVariant.Timer.new "a" false 3 rfl

/-- Claim C3 (counterexample): the claim asserts that the no-print mode holds
"in every variant of the source", but in the `src/lib.rs` variant the
no-message call (`message = None`) on a present label still emits the stdout
line (and `time_log` there returns `()`, not the elapsed value): with `"a"`
started at instant `0`, peeking at instant `5` with no message prints. -/
theorem C3_every_variant_counterexample :
    ((MsgVariant.Timer.new.time "a" 0).time_log "a" none 5).stdout ≠ [] := by
  simp [MsgVariant.Timer.time_log, MsgVariant.Timer.time, MsgVariant.Timer.new]

/-- Claim C3 (amended): in the `src/src/lib.rs` variant, `time_log` on a
present label returns `duration_to_ms (now - s)`; with the silent flag set it
returns the same value while emitting no stdout line, and with it unset it
emits the formatted line.  The `src/lib.rs` variant prints regardless of the
optional message and returns no value. -/
theorem C3_silent_same_value (t : SilentVariant.Timer) (l : Label)
    (s now : Instant) (h : t.timers l = some s) :
    (t.time_log l false now).ret = duration_to_ms (now - s) ∧
    (t.time_log l true now).ret = duration_to_ms (now - s) ∧
    (t.time_log l true now).stdout = [] ∧
    (t.time_log l false now).stdout = [logLine l (duration_to_ms (now - s))] ∧
    (t.time_log l true now).stderr = [] := by
  simp [SilentVariant.Timer.time_log, h]

/-- Witness for C3 (amended) at a concrete input: `"a"` started at `0`,
peeked at `5`. -/
theorem C3_silent_same_value_witness :
    ((SilentVariant.Timer.new.time "a" 0).time_log "a" false 5).ret
      = duration_to_ms (5 - 0) ∧
    ((SilentVariant.Timer.new.time "a" 0).time_log "a" true 5).ret
      = duration_to_ms (5 - 0) ∧
    ((SilentVariant.Timer.new.time "a" 0).time_log "a" true 5).stdout = [] ∧
    ((SilentVariant.Timer.new.time "a" 0).time_log "a" false 5).stdout
      = [logLine "a" (duration_to_ms (5 - 0))] ∧
    ((SilentVariant.Timer.new.time "a" 0).time_log "a" true 5).stderr = [] :=
  C3_silent_same_value (SilentVariant.Timer.new.time "a" 0) "a" 0 5
    (by simp [SilentVariant.Timer.time, SilentVariant.Timer.new])

/-- Claim C4: in both variants, `time` always succeeds and records `now`
under the label, overwriting whatever was there before: after the call the
label maps to `now`, whatever the prior registry state. -/
theorem C4_start_always_records (t2 : SilentVariant.Timer) (t1 : MsgVariant.Timer)
    (l : Label) (now : Instant) :
    (t2.time l now).timers l = some now ∧ (t1.time l now).timers l = some now := by
  simp [SilentVariant.Timer.time, MsgVariant.Timer.time]

/-- Claim C5: `time_log` never modifies the registry (in either variant), so
two successive peeks on a present label both find it, and for non-decreasing
clock readings the returned elapsed values are non-decreasing. -/
theorem C5_peek_preserves_registry (t : SilentVariant.Timer) (t1 : MsgVariant.Timer)
    (l : Label) (s now1 now2 : Instant) (b b2 : Bool)
    (h : t.timers l = some s) (hle : now1 ≤ now2) :
    (∀ (l' : Label) (b' : Bool) (n : Instant), (t.time_log l' b' n).timer = t) ∧
    (∀ (l' : Label) (m' : Option String) (n : Instant),
      (t1.time_log l' m' n).timer = t1) ∧
    (t.time_log l b now1).timer.timers l = some s ∧
    (t.time_log l b now1).ret = duration_to_ms (now1 - s) ∧
    ((t.time_log l b now1).timer.time_log l b2 now2).ret
      = duration_to_ms (now2 - s) ∧
    (t.time_log l b now1).ret ≤ ((t.time_log l b now1).timer.time_log l b2 now2).ret := by
  refine ⟨fun l' b' n => silent_time_log_timer t l' b' n,
    fun l' m' n => msg_time_log_timer t1 l' m' n, ?_, ?_, ?_, ?_⟩
  · rw [silent_time_log_timer]; exact h
  · simp [SilentVariant.Timer.time_log, h]
  · rw [silent_time_log_timer]; simp [SilentVariant.Timer.time_log, h]
  · rw [silent_time_log_timer]
    simp [SilentVariant.Timer.time_log, h]
    exact duration_to_ms_mono (Nat.sub_le_sub_right hle s)

/-- Witness for C5 at a concrete input: `"a"` started at `0`, peeked at `5`
and again at `7`. -/
theorem C5_peek_preserves_registry_witness :
    (∀ (l' : Label) (b' : Bool) (n : Instant),
      ((SilentVariant.Timer.new.time "a" 0).time_log l' b' n).timer
        = SilentVariant.Timer.new.time "a" 0) ∧
    (∀ (l' : Label) (m' : Option String) (n : Instant),
      ((MsgVariant.Timer.new.time "a" 0).time_log l' m' n).timer
        = MsgVariant.Timer.new.time "a" 0) ∧
    ((SilentVariant.Timer.new.time "a" 0).time_log "a" false 5).timer.timers "a"
      = some 0 ∧
    ((SilentVariant.Timer.new.time "a" 0).time_log "a" false 5).ret
      = duration_to_ms (5 - 0) ∧
    (((SilentVariant.Timer.new.time "a" 0).time_log "a" false 5).timer.time_log
        "a" false 7).ret = duration_to_ms (7 - 0) ∧
    ((SilentVariant.Timer.new.time "a" 0).time_log "a" false 5).ret
      ≤ (((SilentVariant.Timer.new.time "a" 0).time_log "a" false 5).timer.time_log
        "a" false 7).ret :=
  C5_peek_preserves_registry (SilentVariant.Timer.new.time "a" 0)
    (MsgVariant.Timer.new.time "a" 0) "a" 0 5 7 false false
    (by simp [SilentVariant.Timer.time, SilentVariant.Timer.new]) (by norm_num)

/-- Claim C6: `duration_to_ms` is exact: for every duration it equals the
total nanosecond count divided by `10^6` (whole-seconds × 1000 plus
sub-second nanoseconds / 1e6 introduces no error), and a duration of exactly
1234 milliseconds (= 1234 × 10^6 ns) converts to exactly `1234.0`.  All the
intermediate `f64` values at this input (1, 1000, 234000000, 234, 1234) are
integers below 2^53, so the floating-point evaluation is exact as well. -/
theorem C6_duration_to_ms_exact :
    (∀ d : Duration, duration_to_ms d = (d : ℚ) / 1000000) ∧
    duration_to_ms (1234 * 1000000) = 1234 := by
  refine ⟨duration_to_ms_eq_div, ?_⟩
  rw [duration_to_ms_eq_div]
  norm_num

/-- Claim C7 (counterexample): the claim says every `time_log`/`time_end`
call emits exactly one stdout line, but a call on an absent label emits none
(the diagnostic goes to stderr): peeking `"a"` on a fresh registry writes
zero stdout lines. -/
theorem C7_one_line_counterexample :
    ¬ (SilentVariant.Timer.new.time_log "a" false 0).stdout.length = 1 := by
  simp [SilentVariant.Timer.time_log, SilentVariant.Timer.new]

/-- Claim C7 (amended): every `time_log`/`time_end` call on a present label
— with the silent flag unset, in the variant that has one — emits exactly
one stdout line, `"{label}: {ms:.3}ms"`, or `"{label}: {ms:.3}ms - {message}"`
when a message was supplied; a call on an absent label emits no stdout line. -/
theorem C7_stdout_line_format (t2 : SilentVariant.Timer) (t1 : MsgVariant.Timer)
    (l : Label) (s1 s2 now : Instant) (m : String)
    (h2 : t2.timers l = some s2) (h1 : t1.timers l = some s1) :
    (t2.time_log l false now).stdout = [logLine l (duration_to_ms (now - s2))] ∧
    (t2.time_end l false now).stdout = [logLine l (duration_to_ms (now - s2))] ∧
    (t1.time_log l none now).stdout = [logLine l (duration_to_ms (now - s1))] ∧
    (t1.time_log l (some m) now).stdout
      = [msgLine l (duration_to_ms (now - s1)) m] ∧
    (t1.time_end l now).stdout = [logLine l (duration_to_ms (now - s1))] ∧
    (∀ u : SilentVariant.Timer, u.timers l = none →
      (u.time_log l false now).stdout = [] ∧ (u.time_end l false now).stdout = []) := by
  refine ⟨?_, ?_, ?_, ?_, ?_, fun u hu => ?_⟩ <;>
    simp [SilentVariant.Timer.time_log, SilentVariant.Timer.time_end,
      MsgVariant.Timer.time_log, MsgVariant.Timer.time_end, h1, h2]
  simp [hu]

/-- Witness for C7 (amended) at a concrete input: `"a"` started at `0` in
both variants, logged at instant `5` with message `"done"`. -/
theorem C7_stdout_line_format_witness :
    ((SilentVariant.Timer.new.time "a" 0).time_log "a" false 5).stdout
      = [logLine "a" (duration_to_ms (5 - 0))] ∧
    ((SilentVariant.Timer.new.time "a" 0).time_end "a" false 5).stdout
      = [logLine "a" (duration_to_ms (5 - 0))] ∧
    ((MsgVariant.Timer.new.time "a" 0).time_log "a" none 5).stdout
      = [logLine "a" (duration_to_ms (5 - 0))] ∧
    ((MsgVariant.Timer.new.time "a" 0).time_log "a" (some "done") 5).stdout
      = [msgLine "a" (duration_to_ms (5 - 0)) "done"] ∧
    ((MsgVariant.Timer.new.time "a" 0).time_end "a" 5).stdout
      = [logLine "a" (duration_to_ms (5 - 0))] ∧
    (∀ u : SilentVariant.Timer, u.timers "a" = none →
      (u.time_log "a" false 5).stdout = [] ∧ (u.time_end "a" false 5).stdout = []) :=
  C7_stdout_line_format (SilentVariant.Timer.new.time "a" 0)
    (MsgVariant.Timer.new.time "a" 0) "a" 0 0 5 "done"
    (by simp [SilentVariant.Timer.time, SilentVariant.Timer.new])
    (by simp [MsgVariant.Timer.time, MsgVariant.Timer.new])

/-- Claim C8: every operation of both variants completes normally on every
registry state and label: the embedded functions are total, and each call's
result is exactly one of the two defined outcomes — the success branch or the
diagnostic-and-zero branch — so looking up a nonexistent label never reaches
a panic, throw or abort. -/
theorem C8_no_panic (t2 : SilentVariant.Timer) (t1 : MsgVariant.Timer)
    (l : Label) (b : Bool) (m : Option String) (now : Instant) :
    ((∃ s, t2.timers l = some s ∧
        (t2.time_log l b now).ret = duration_to_ms (now - s) ∧
        (t2.time_end l b now).ret = duration_to_ms (now - s)) ∨
      (t2.timers l = none ∧ (t2.time_log l b now).ret = 0 ∧
        (t2.time_log l b now).stderr = [missingLine l] ∧
        (t2.time_end l b now).ret = 0 ∧
        (t2.time_end l b now).stderr = [missingLine l])) ∧
    (t2.time l now).timers l = some now ∧
    (t1.time l now).timers l = some now ∧
    ((t1.time_log l m now).stderr = [] ∨
      (t1.time_log l m now).stderr = [missingLine l]) ∧
    ((t1.time_end l now).stderr = [] ∨
      (t1.time_end l now).stderr = [missingLine l]) := by
  refine ⟨?_, by simp [SilentVariant.Timer.time], by simp [MsgVariant.Timer.time],
    ?_, ?_⟩
  · cases h : t2.timers l with
    | some s =>
        exact Or.inl ⟨s, rfl, by
          simp [SilentVariant.Timer.time_log, SilentVariant.Timer.time_end, h]⟩
    | none =>
        exact Or.inr ⟨rfl, by
          simp [SilentVariant.Timer.time_log, SilentVariant.Timer.time_end, h]⟩
  · cases h : t1.timers l <;> simp [MsgVariant.Timer.time_log, h]
  · cases h : t1.timers l <;> simp [MsgVariant.Timer.time_end, h]

/-- Claim C10: every operation touches at most its own label: for any other
label `l'`, `time`, `time_log` and `time_end` on `l` leave the presence and
start instant of `l'` unchanged (`src/src/lib.rs` variant, the one the claim
cites). -/
theorem C10_frame_other_labels (t : SilentVariant.Timer) (l l' : Label)
    (b : Bool) (now : Instant) (h : l' ≠ l) :
    (t.time l now).timers l' = t.timers l' ∧
    (t.time_log l b now).timer.timers l' = t.timers l' ∧
    (t.time_end l b now).timer.timers l' = t.timers l' := by
  refine ⟨by simp [SilentVariant.Timer.time, h], by rw [silent_time_log_timer], ?_⟩
  cases hx : t.timers l <;> simp [SilentVariant.Timer.time_end, hx, h]

/-- Witness for C10 at a concrete input: operations on `"a"` leave `"b"`
(started at instant `1`) untouched. -/
theorem C10_frame_other_labels_witness :
    (((SilentVariant.Timer.new.time "b" 1).time "a" 5).timers "b"
      = (SilentVariant.Timer.new.time "b" 1).timers "b") ∧
    (((SilentVariant.Timer.new.time "b" 1).time_log "a" false 5).timer.timers "b"
      = (SilentVariant.Timer.new.time "b" 1).timers "b") ∧
    (((SilentVariant.Timer.new.time "b" 1).time_end "a" false 5).timer.timers "b"
      = (SilentVariant.Timer.new.time "b" 1).timers "b") :=
  C10_frame_other_labels (SilentVariant.Timer.new.time "b" 1) "a" "b" false 5
    (by decide)
